import Mathlib

/-!
Verification development for the pact-server repository.

Part 1 embeds the working code of `src/src/index.ts`: the `Pact` record,
the in-memory `DB` (a JS object used as a key-value store), and the three
HTTP route handlers (`GET /status`, `POST /pact`, `GET /pact`).

Part 2 models, from the specification's words, the chain-synchronizing
indexer (Store with provenance upsert, Chain Reader, Sync Engine) that the
source only describes in comments: `Server.main` in the source is an empty
stub, so those components are modelled from spec sections 3, 4.1, 4.2 and 4.4.
-/

/-- Embeds `type Pact` (src/src/index.ts lines 31-37): name, terms, address,
transactionHash, blockHash, all strings.  Note the source type has no
blockNumber field. -/
structure Pact where
  name : String
  terms : String
  address : String
  transactionHash : String
  blockHash : String
deriving DecidableEq, Repr

/-- Embeds the private state of `class DB` (line 41): a JS object
`{ [key: string]: Pact }`, i.e. a finite partial map; indexing a missing
key yields `undefined`, modelled as `none`. -/
def DB : Type := String → Option Pact

/-- The freshly constructed database (`constructor` line 43-45): empty object. -/
def DB.empty : DB := fun _ => none

/-- Embeds `DB.get` (lines 47-49): `return this.db[key]` — `undefined`
(`none`) when the key was never written. -/
def DB.get (d : DB) (key : String) : Option Pact := d key

/-- Embeds `DB.get` as a state transformer, making explicit that the method
reads `this.db` and leaves it unchanged. -/
def DB.getM (d : DB) (key : String) : Option Pact × DB := (d key, d)

/-- Embeds `DB.set` (lines 51-53): `this.db[key] = value` — unconditional
assignment, replacing whatever was stored under `key`. -/
def DB.set (d : DB) (key : String) (value : Pact) : DB :=
  fun k => if k = key then some value else d k

/-- A sequence of `DB.set` writes applied to the fresh database. -/
def DB.applyWrites (ws : List (String × Pact)) : DB :=
  ws.foldl (fun d w => DB.set d w.1 w.2) DB.empty

/-- Embeds `type State` (lines 26-29): blockNumber and the db. -/
structure State where
  blockNumber : Nat
  db : DB

/-- The five body fields the `POST /pact` handler reads from `req.body`
(lines 113-119). -/
structure PactBody where
  name : String
  terms : String
  address : String
  transactionHash : String
  blockHash : String
deriving DecidableEq, Repr

/-- The `Pact` record the handler builds from the request body (lines 113-119). -/
def pactOf (b : PactBody) : Pact :=
  { name := b.name, terms := b.terms, address := b.address,
    transactionHash := b.transactionHash, blockHash := b.blockHash }

/-- Embeds the `GET /status` handler (lines 102-106): always responds
`200` with body `{ok: true}` (the Bool is the `ok` field); the server
state is ignored. -/
def routeGetStatus (_st : State) : Nat × Bool := (200, true)

/-- Embeds the `POST /pact` handler (lines 111-131): builds a `Pact` from
the body, stores it via `db.set(pact.address, pact)`, responds `200`. -/
def routePostPact (st : State) (b : PactBody) : State × Nat :=
  let pact := pactOf b
  ({ st with db := st.db.set pact.address pact }, 200)

/-- Embeds the `GET /pact` handler (lines 133-141): looks up the address,
responds `404` with empty body when the lookup is `undefined` (`!pact`),
otherwise `200` with the stored pact as the JSON body. -/
def routeGetPact (st : State) (address : String) : Nat × Option Pact :=
  match st.db.get address with
  | none => (404, none)
  | some pact => (200, some pact)

/-! ### Shared concrete values used by witnesses and counterexamples -/

/-- A pact with every field populated. -/
def pactA : Pact :=
  { name := "Lease", terms := "12mo", address := "0xABC",
    transactionHash := "0xTX1", blockHash := "0xBH1" }

/-- Server state with an empty database. -/
def stEmpty : State := { blockNumber := 0, db := DB.empty }

/-- Server state whose database holds `pactA` under its address. -/
def stA : State := { blockNumber := 0, db := DB.set DB.empty "0xABC" pactA }

/-- A submission for the same address carrying only provenance
(name and terms blank), with provenance values differing from `pactA`. -/
def bodyProv2 : PactBody :=
  { name := "", terms := "", address := "0xABC",
    transactionHash := "0xTX2", blockHash := "0xBH2" }

/-- A metadata-only submission for address 0xABC (blank provenance). -/
def bodyMeta : PactBody :=
  { name := "Lease", terms := "12mo", address := "0xABC",
    transactionHash := "", blockHash := "" }

/-- A provenance-only submission for address 0xABC (blank metadata). -/
def bodyProv : PactBody :=
  { name := "", terms := "", address := "0xABC",
    transactionHash := "0xTX1", blockHash := "0xBH1" }

/-! ### Claims about the route and DB code -/

/-- C9: every request to `GET /status` returns HTTP 200 with body
`{ok: true}`, independent of the server state (store contents and sync
state alike). -/
theorem routeGetStatus_always_ok (st st' : State) :
    routeGetStatus st = (200, true) ∧ routeGetStatus st = routeGetStatus st' :=
  ⟨rfl, rfl⟩

/-- C5: `GET /pact?address=` returns 404 when no pact is stored under the
address and 200 with the stored pact when one is; a read miss is an
ordinary `none` result of `DB.get`, never an exception (the handler is a
total function). -/
theorem routeGetPact_found_or_404 (st : State) (address : String) :
    (st.db.get address = none → routeGetPact st address = (404, none)) ∧
    (∀ p, st.db.get address = some p → routeGetPact st address = (200, some p)) := by
  constructor
  · intro h
    simp [routeGetPact, h]
  · intro p h
    simp [routeGetPact, h]

/-- Witness for C5 at concrete states: miss on the empty store, hit on a
store holding `pactA`. -/
theorem routeGetPact_found_or_404_witness :
    routeGetPact stEmpty "0xABC" = (404, none) ∧
    routeGetPact stA "0xABC" = (200, some pactA) :=
  ⟨(routeGetPact_found_or_404 stEmpty "0xABC").1 rfl,
   (routeGetPact_found_or_404 stA "0xABC").2 pactA (by decide)⟩

/-- C10: `DB.set` followed by `DB.get` on the same key returns exactly the
written value; `DB.get` on a key never written (no write in the whole
history targets it) returns `none`; and `DB.get` never modifies the store. -/
theorem db_set_get_roundtrip (d : DB) (k : String) (v : Pact)
    (ws : List (String × Pact)) :
    DB.get (DB.set d k v) k = some v ∧
    ((∀ w ∈ ws, w.1 ≠ k) → DB.get (DB.applyWrites ws) k = none) ∧
    (DB.getM d k).2 = d := by
  refine ⟨by simp [DB.get, DB.set], ?_, rfl⟩
  intro h
  have key : ∀ (ws' : List (String × Pact)) (d0 : DB),
      (∀ w ∈ ws', w.1 ≠ k) → DB.get d0 k = none →
      DB.get (ws'.foldl (fun d w => DB.set d w.1 w.2) d0) k = none := by
    intro ws'
    induction ws' with
    | nil => intro d0 _ h0; exact h0
    | cons w rest ih =>
      intro d0 hw h0
      refine ih (DB.set d0 w.1 w.2) (fun x hx => hw x (List.mem_cons_of_mem w hx)) ?_
      have hne : w.1 ≠ k := hw w (List.mem_cons_self w rest)
      simpa [DB.get, DB.set, Ne.symm hne] using h0
  exact key ws DB.empty h rfl

/-- Witness for C10: a history writing only `0xDEF` leaves `0xABC` unread. -/
theorem db_set_get_roundtrip_witness :
    (∀ w ∈ [("0xDEF", pactA)], Prod.fst w ≠ "0xABC") ∧
    DB.get (DB.applyWrites [("0xDEF", pactA)]) "0xABC" = none :=
  ⟨by decide,
   (db_set_get_roundtrip DB.empty "0xABC" pactA [("0xDEF", pactA)]).2.1 (by decide)⟩

/-- C3: the store write reached from a pact submission is idempotent —
`DB.set` twice with identical arguments equals `DB.set` once, and repeating
an identical `POST /pact` leaves the response and resulting state equal to
those of the first request. -/
theorem db_set_idempotent (d : DB) (k : String) (v : Pact)
    (st : State) (b : PactBody) :
    DB.set (DB.set d k v) k v = DB.set d k v ∧
    routePostPact (routePostPact st b).1 b = routePostPact st b := by
  have hset : ∀ (d' : DB) (k' : String) (v' : Pact),
      DB.set (DB.set d' k' v') k' v' = DB.set d' k' v' := by
    intro d' k' v'
    funext x
    by_cases hx : x = k' <;> simp [DB.set, hx]
  refine ⟨hset d k v, ?_⟩
  simp only [routePostPact]
  rw [hset]

/-- C1 counterexample: with `pactA` stored (non-empty transactionHash and
blockHash), the store write reached from a pact submission (`POST /pact`
with `bodyProv2`) replaces both non-empty provenance fields instead of
leaving them unchanged. -/
theorem postPact_overwrites_provenance_cex :
    pactA.transactionHash ≠ "" ∧ pactA.blockHash ≠ "" ∧
    stA.db.get "0xABC" = some pactA ∧
    ((routePostPact stA bodyProv2).1).db.get "0xABC" = some (pactOf bodyProv2) ∧
    (pactOf bodyProv2).transactionHash ≠ pactA.transactionHash ∧
    (pactOf bodyProv2).blockHash ≠ pactA.blockHash := by
  refine ⟨by decide, by decide, by decide, by decide, by decide, by decide⟩

/-- C1 amended: the store write reached from a pact submission replaces the
stored `Pact` wholesale with the submitted record, creating it if absent and
overwriting non-empty provenance fields rather than preserving them; entries
under every other address are left unchanged. -/
theorem postPact_unconditional_overwrite (st : State) (b : PactBody) :
    ((routePostPact st b).1).db.get b.address = some (pactOf b) ∧
    (∀ k, k ≠ b.address → ((routePostPact st b).1).db.get k = st.db.get k) := by
  constructor
  · simp [routePostPact, DB.get, DB.set, pactOf]
  · intro k hk
    simp [routePostPact, DB.get, DB.set, pactOf, hk]

/-- Witness for C1's amended theorem: overwriting `pactA` with `bodyProv2`
and checking an unrelated address is untouched. -/
theorem postPact_unconditional_overwrite_witness :
    ("0xDEF" : String) ≠ bodyProv2.address ∧
    ((routePostPact stA bodyProv2).1).db.get "0xDEF" = stA.db.get "0xDEF" :=
  ⟨by decide,
   (postPact_unconditional_overwrite stA bodyProv2).2 "0xDEF" (by decide)⟩

/-- C2 counterexample: submitting metadata (`bodyMeta`) then provenance
(`bodyProv`) yields a different final stored pact than the reverse order,
and the metadata-then-provenance order ends with the previously supplied
name and terms replaced by the empty strings of `bodyProv`. -/
theorem merge_order_dependent_cex :
    ((routePostPact (routePostPact stEmpty bodyMeta).1 bodyProv).1).db.get "0xABC" ≠
      ((routePostPact (routePostPact stEmpty bodyProv).1 bodyMeta).1).db.get "0xABC" ∧
    ((routePostPact (routePostPact stEmpty bodyMeta).1 bodyProv).1).db.get "0xABC" =
      some (pactOf bodyProv) ∧
    (pactOf bodyProv).name = "" ∧ bodyMeta.name ≠ "" := by
  refine ⟨by decide, by decide, by decide, by decide⟩

/-- C2 amended: submission order matters — after two `POST /pact`
submissions for the same address, the final stored pact is exactly the
second submission's record (last-writer-wins on the whole record), so the
merge step replaces previously supplied metadata with blanks whenever the
later submission carries blank metadata. -/
theorem merge_last_writer_wins (st : State) (b1 b2 : PactBody)
    (h : b1.address = b2.address) :
    ((routePostPact (routePostPact st b1).1 b2).1).db.get b1.address =
      some (pactOf b2) := by
  rw [h]
  simp [routePostPact, DB.get, DB.set, pactOf]

/-- Witness for C2's amended theorem: metadata then provenance, same address. -/
theorem merge_last_writer_wins_witness :
    bodyMeta.address = bodyProv.address ∧
    ((routePostPact (routePostPact stEmpty bodyMeta).1 bodyProv).1).db.get
        bodyMeta.address = some (pactOf bodyProv) :=
  ⟨by decide, merge_last_writer_wins stEmpty bodyMeta bodyProv (by decide)⟩

/-- C4: submitting metadata (a `POST /pact`) creates the pact if absent, and
two successive submissions for the same address leave the stored name and
terms equal to the second submission's values (last-writer-wins). -/
theorem postPact_metadata_lww (st : State) (b b1 b2 : PactBody) :
    ((routePostPact st b).1).db.get b.address = some (pactOf b) ∧
    (b1.address = b2.address →
      ∃ p, ((routePostPact (routePostPact st b1).1 b2).1).db.get b2.address = some p ∧
        p.name = b2.name ∧ p.terms = b2.terms) := by
  constructor
  · simp [routePostPact, DB.get, DB.set, pactOf]
  · intro _
    exact ⟨pactOf b2, by simp [routePostPact, DB.get, DB.set, pactOf], rfl, rfl⟩

/-- Witness for C4: two concrete submissions for 0xABC; the stored name and
terms are the second submission's. -/
theorem postPact_metadata_lww_witness :
    bodyProv.address = bodyMeta.address ∧
    (∃ p, ((routePostPact (routePostPact stEmpty bodyProv).1 bodyMeta).1).db.get
        bodyMeta.address = some p ∧ p.name = bodyMeta.name ∧ p.terms = bodyMeta.terms) :=
  ⟨by decide,
   (postPact_metadata_lww stEmpty bodyProv bodyProv bodyMeta).2 (by decide)⟩

/-! ### Part 2 — the chain-synchronizing indexer, modelled from the spec

`Server.main` (src/src/index.ts lines 147-153) is an empty stub whose body
is only comments; the Store contract, Chain Reader and Sync Engine below
are modelled from the specification (sections 3, 4.1, 4.2, 4.4). -/

namespace Spec

/-- Modelled from the spec: the Pact data model of section 3, which —
unlike the source's `type Pact` — also carries `blockNumber`; metadata and
provenance halves are optional until supplied (empty string / `none`). -/
structure Pact where
  name : String
  terms : String
  address : String
  transactionHash : String
  blockHash : String
  blockNumber : Option Nat
deriving DecidableEq, Repr

/-- Modelled from the spec: the Store's keyed mapping from contract address
to merged pact record (section 4.1). -/
def Store : Type := String → Option Pact

/-- A string field counts as filled once non-empty; filling keeps an
existing non-empty value. -/
def fillIfEmpty (old new : String) : String := if old = "" then new else old

/-- Modelled from the spec: `upsertProvenance(address, transactionHash,
blockHash, blockNumber)` (section 4.1) — creates a Pact if absent; if
present, fills only empty provenance fields, never overwriting non-empty
provenance. -/
def upsertProvenance (s : Store) (address txh blkh : String) (blkn : Nat) :
    Store :=
  fun k =>
    if k = address then
      match s address with
      | none =>
        some { name := "", terms := "", address := address,
               transactionHash := txh, blockHash := blkh,
               blockNumber := some blkn }
      | some p =>
        some { p with
               transactionHash := fillIfEmpty p.transactionHash txh,
               blockHash := fillIfEmpty p.blockHash blkh,
               blockNumber := some (p.blockNumber.getD blkn) }
    else s k

/-- Modelled from the spec: `upsertMetadata(address, name, terms)`
(section 4.1) — creates a Pact if absent; overwrites name/terms
unconditionally. -/
def upsertMetadata (s : Store) (address nm tms : String) : Store :=
  fun k =>
    if k = address then
      match s address with
      | none =>
        some { name := nm, terms := tms, address := address,
               transactionHash := "", blockHash := "", blockNumber := none }
      | some p => some { p with name := nm, terms := tms }
    else s k

/-- Modelled from the spec: a decoded PactCreated event (section 3) —
contract address, creating transaction hash, block hash, block number. -/
structure PactCreatedEvent where
  address : String
  transactionHash : String
  blockHash : String
  blockNumber : Nat
deriving DecidableEq, Repr

/-- Modelled from the spec: the SyncCursor (section 3) — highest fully
processed block height plus its hash. -/
structure SyncCursor where
  lastScannedBlock : Nat
  lastScannedBlockHash : String
deriving DecidableEq, Repr

/-- Outcome of one chain-client call: a value, `NotFound`, or
`ChainUnavailable` (which also stands for a per-call timeout). -/
inductive ChainAnswer (α : Type) where
  | ok (val : α)
  | notFound
  | unavailable
deriving DecidableEq, Repr

/-- Modelled from the spec: the Chain Reader interface (section 4.2) —
`headHeight()`, `blockHash(height)`, and `logsInRange` already composed
with the Event Decoder (claims exercise no DecodeError, so decoded events
are returned directly, ordered ascending as section 4.2 requires). -/
structure Chain where
  headHeight : ChainAnswer Nat
  blockHash : Nat → ChainAnswer String
  logsInRange : Nat → Nat → ChainAnswer (List PactCreatedEvent)

/-- Sync Engine configuration (sections 4.2, 4.4, 6). -/
structure Config where
  confirmationDepth : Nat
  maxBatchBlocks : Nat

/-- The persisted state the Sync Engine owns: cursor plus Store. -/
structure EngineState where
  cursor : SyncCursor
  store : Store

/-- How a tick ends: advanced the cursor, nothing to do, detected a reorg
(entering ReorgRecovering), or aborted on a chain failure. -/
inductive TickOutcome where
  | advanced
  | idle
  | reorgDetected
  | failed
deriving DecidableEq, Repr

/-- The scan target of section 4.4:
`min(headHeight() - confirmationDepth, lastScannedBlock + maxBatchBlocks)`. -/
def targetOf (cfg : Config) (head last : Nat) : Nat :=
  min (head - cfg.confirmationDepth) (last + cfg.maxBatchBlocks)

/-- Upsert the provenance of each decoded event in batch order
(section 4.4 Advancing). -/
def applyEvents (s : Store) (evs : List PactCreatedEvent) : Store :=
  evs.foldl
    (fun acc e =>
      upsertProvenance acc e.address e.transactionHash e.blockHash e.blockNumber)
    s

/-- Modelled from the spec: one Sync Engine tick (section 4.4).
Scanning: verify `blockHash(cursor.lastScannedBlock)` matches the recorded
hash (mismatch or NotFound enters ReorgRecovering); compute the target and
go idle when it does not exceed the cursor.  Advancing: fetch and upsert
the logs of `(lastScannedBlock+1 .. target]`, then advance the cursor to
`(target, blockHash(target))`; any chain failure aborts the tick with the
cursor unmodified (store upserts already made are kept — safe to replay,
as upserting provenance is idempotent). -/
def syncTick (cfg : Config) (ch : Chain) (st : EngineState) :
    TickOutcome × EngineState :=
  match ch.blockHash st.cursor.lastScannedBlock with
  | .unavailable => (.failed, st)
  | .notFound => (.reorgDetected, st)
  | .ok h =>
    if h = st.cursor.lastScannedBlockHash then
      match ch.headHeight with
      | .ok head =>
        let target := targetOf cfg head st.cursor.lastScannedBlock
        if target ≤ st.cursor.lastScannedBlock then (.idle, st)
        else
          match ch.logsInRange (st.cursor.lastScannedBlock + 1) target with
          | .ok evs =>
            let store := applyEvents st.store evs
            match ch.blockHash target with
            | .ok th =>
              (.advanced,
               { cursor := { lastScannedBlock := target,
                             lastScannedBlockHash := th },
                 store := store })
            | _ => (.failed, { st with store := store })
          | _ => (.failed, st)
      | _ => (.failed, st)
    else (.reorgDetected, st)

/-! ### Concrete scenario data (spec section 8, end-to-end scenario) -/

/-- A deterministic block-hash function for the scenario chain. -/
def demoHash (n : Nat) : String := "h" ++ toString n

/-- The single PactCreated log of the scenario: address 0xABC at block 105. -/
def demoEvent : PactCreatedEvent :=
  { address := "0xABC", transactionHash := "0xTXabc",
    blockHash := demoHash 105, blockNumber := 105 }

/-- The scenario chain: head at 110, every block hash available, exactly
one PactCreated log at block 105. -/
def demoChain : Chain :=
  { headHeight := .ok 110,
    blockHash := fun n => .ok (demoHash n),
    logsInRange := fun lo hi =>
      .ok (if lo ≤ 105 ∧ 105 ≤ hi then [demoEvent] else []) }

/-- The scenario configuration: confirmationDepth 2, maxBatchBlocks 50. -/
def demoCfg : Config := { confirmationDepth := 2, maxBatchBlocks := 50 }

/-- The scenario start state: cursor at block 100 with its matching hash,
empty store. -/
def demoState : EngineState :=
  { cursor := { lastScannedBlock := 100, lastScannedBlockHash := demoHash 100 },
    store := fun _ => none }

end Spec

/-- C6: from cursor 100, head 110, confirmationDepth 2, maxBatchBlocks 50
and one PactCreated log at block 105 for 0xABC, one tick advances the
cursor to (108, hash(108)) and stores a Pact for 0xABC whose provenance
(transactionHash, blockHash, blockNumber 105) is populated and whose name
and terms are empty. -/
theorem syncTick_end_to_end_scenario :
    (Spec.syncTick Spec.demoCfg Spec.demoChain Spec.demoState).1 =
      Spec.TickOutcome.advanced ∧
    (Spec.syncTick Spec.demoCfg Spec.demoChain Spec.demoState).2.cursor =
      { lastScannedBlock := 108, lastScannedBlockHash := Spec.demoHash 108 } ∧
    (Spec.syncTick Spec.demoCfg Spec.demoChain Spec.demoState).2.store "0xABC" =
      some { name := "", terms := "", address := "0xABC",
             transactionHash := "0xTXabc", blockHash := Spec.demoHash 105,
             blockNumber := some 105 } := by
  refine ⟨by decide, by decide, by decide⟩

namespace Spec

/-- A run is successful when every tick ends `advanced` or `idle`
(no reorg detection, no chain failure), threading the engine state. -/
def ticksOk (cfg : Config) : EngineState → List Chain → Bool
  | _, [] => true
  | st, ch :: rest =>
    match syncTick cfg ch st with
    | (.advanced, st') => ticksOk cfg st' rest
    | (.idle, st') => ticksOk cfg st' rest
    | _ => false

/-- Along a run: each tick leaves `lastScannedBlock` no smaller, and when
the tick's target exceeds the previous cursor the new cursor equals that
target. -/
def cursorMonotone (cfg : Config) : EngineState → List Chain → Prop
  | _, [] => True
  | st, ch :: rest =>
    st.cursor.lastScannedBlock ≤ (syncTick cfg ch st).2.cursor.lastScannedBlock ∧
    (∀ head, ch.headHeight = ChainAnswer.ok head →
      st.cursor.lastScannedBlock < targetOf cfg head st.cursor.lastScannedBlock →
      (syncTick cfg ch st).2.cursor.lastScannedBlock =
        targetOf cfg head st.cursor.lastScannedBlock) ∧
    cursorMonotone cfg (syncTick cfg ch st).2 rest

/-- One successful tick (outcome `advanced` or `idle`) never decreases the
cursor, and reaches exactly the tick's target whenever that target exceeds
the previous cursor. -/
theorem tick_step_mono (cfg : Config) (ch : Chain) (st : EngineState)
    (h : (syncTick cfg ch st).1 = TickOutcome.advanced ∨
         (syncTick cfg ch st).1 = TickOutcome.idle) :
    st.cursor.lastScannedBlock ≤ (syncTick cfg ch st).2.cursor.lastScannedBlock ∧
    (∀ head, ch.headHeight = ChainAnswer.ok head →
      st.cursor.lastScannedBlock < targetOf cfg head st.cursor.lastScannedBlock →
      (syncTick cfg ch st).2.cursor.lastScannedBlock =
        targetOf cfg head st.cursor.lastScannedBlock) := by
  rcases hbh : ch.blockHash st.cursor.lastScannedBlock with hv | _ | _
  · by_cases hmatch : hv = st.cursor.lastScannedBlockHash
    · rcases hhd : ch.headHeight with head | _ | _
      · by_cases htgt :
          targetOf cfg head st.cursor.lastScannedBlock ≤ st.cursor.lastScannedBlock
        · constructor
          · simp [syncTick, hbh, hmatch, hhd, htgt]
          · intro head2 hh2 hlt
            have he : head = head2 := ChainAnswer.ok.inj hh2
            subst he
            exact absurd htgt (not_le.mpr hlt)
        · rcases hlogs : ch.logsInRange (st.cursor.lastScannedBlock + 1)
              (targetOf cfg head st.cursor.lastScannedBlock) with evs | _ | _
          · rcases hth : ch.blockHash (targetOf cfg head st.cursor.lastScannedBlock)
                with th | _ | _
            · constructor
              · simp only [syncTick, hbh, hmatch, if_true, hhd, htgt, if_false,
                  hlogs, hth]
                exact Nat.le_of_lt (Nat.lt_of_not_le htgt)
              · intro head2 hh2 _
                have he : head = head2 := ChainAnswer.ok.inj hh2
                subst he
                simp [syncTick, hbh, hmatch, hhd, htgt, hlogs, hth]
            · simp [syncTick, hbh, hmatch, hhd, htgt, hlogs, hth] at h
            · simp [syncTick, hbh, hmatch, hhd, htgt, hlogs, hth] at h
          · simp [syncTick, hbh, hmatch, hhd, htgt, hlogs] at h
          · simp [syncTick, hbh, hmatch, hhd, htgt, hlogs] at h
      · simp [syncTick, hbh, hmatch, hhd] at h
      · simp [syncTick, hbh, hmatch, hhd] at h
    · simp [syncTick, hbh, hmatch] at h
  · simp [syncTick, hbh] at h
  · simp [syncTick, hbh] at h

end Spec

/-- C7: after any sequence of successful ticks with no reorg (every tick
ends `advanced` or `idle`), `lastScannedBlock` is non-decreasing across
the whole run and, whenever a tick's target
`min(headHeight - confirmationDepth, lastScannedBlock + maxBatchBlocks)`
exceeds the previous cursor, the cursor after that tick equals the target. -/
theorem cursor_monotone_successful_run (cfg : Spec.Config) (chs : List Spec.Chain)
    (st : Spec.EngineState) (h : Spec.ticksOk cfg st chs = true) :
    Spec.cursorMonotone cfg st chs := by
  induction chs generalizing st with
  | nil => exact trivial
  | cons ch rest ih =>
    rcases hr : Spec.syncTick cfg ch st with ⟨o, st'⟩
    rw [Spec.ticksOk, hr] at h
    have hstep := Spec.tick_step_mono cfg ch st
    rw [Spec.cursorMonotone, hr]
    rw [hr] at hstep
    cases o with
    | advanced =>
      exact ⟨(hstep (Or.inl rfl)).1, (hstep (Or.inl rfl)).2, ih st' h⟩
    | idle =>
      exact ⟨(hstep (Or.inr rfl)).1, (hstep (Or.inr rfl)).2, ih st' h⟩
    | reorgDetected => simp at h
    | failed => simp at h

/-- Witness for C7: two concrete ticks on the scenario chain — the first
advances the cursor from 100 to 108, the second is idle. -/
theorem cursor_monotone_successful_run_witness :
    Spec.cursorMonotone Spec.demoCfg Spec.demoState
      [Spec.demoChain, Spec.demoChain] :=
  cursor_monotone_successful_run Spec.demoCfg [Spec.demoChain, Spec.demoChain]
    Spec.demoState (by decide)

namespace Spec

/-- A chain that passes the cursor hash check and serves logs, but whose
`blockHash(target)` call times out: the tick fails inside the Advancing
phase, after the provenance upserts. -/
def failChain : Chain :=
  { headHeight := .ok 110,
    blockHash := fun n => if n = 100 then .ok (demoHash 100) else .unavailable,
    logsInRange := fun _ _ => .ok [demoEvent] }

end Spec

/-- C8: a sync tick that fails (any aborted chain call, including a
timeout during the Advancing phase after upserts) leaves the persisted
cursor exactly as it was — no partial cursor advancement on failure. -/
theorem syncTick_failed_cursor_unchanged (cfg : Spec.Config) (ch : Spec.Chain)
    (st : Spec.EngineState)
    (h : (Spec.syncTick cfg ch st).1 = Spec.TickOutcome.failed) :
    (Spec.syncTick cfg ch st).2.cursor = st.cursor := by
  rcases hbh : ch.blockHash st.cursor.lastScannedBlock with hv | _ | _
  · by_cases hmatch : hv = st.cursor.lastScannedBlockHash
    · rcases hhd : ch.headHeight with head | _ | _
      · by_cases htgt : Spec.targetOf cfg head st.cursor.lastScannedBlock ≤
            st.cursor.lastScannedBlock
        · simp [Spec.syncTick, hbh, hmatch, hhd, htgt] at h
        · rcases hlogs : ch.logsInRange (st.cursor.lastScannedBlock + 1)
              (Spec.targetOf cfg head st.cursor.lastScannedBlock) with evs | _ | _
          · rcases hth : ch.blockHash
                (Spec.targetOf cfg head st.cursor.lastScannedBlock) with th | _ | _
            · simp [Spec.syncTick, hbh, hmatch, hhd, htgt, hlogs, hth] at h
            · simp [Spec.syncTick, hbh, hmatch, hhd, htgt, hlogs, hth]
            · simp [Spec.syncTick, hbh, hmatch, hhd, htgt, hlogs, hth]
          · simp [Spec.syncTick, hbh, hmatch, hhd, htgt, hlogs]
          · simp [Spec.syncTick, hbh, hmatch, hhd, htgt, hlogs]
      · simp [Spec.syncTick, hbh, hmatch, hhd]
      · simp [Spec.syncTick, hbh, hmatch, hhd]
    · simp [Spec.syncTick, hbh, hmatch] at h
  · simp [Spec.syncTick, hbh] at h
  · simp [Spec.syncTick, hbh]

/-- Witness for C8: on `failChain` the tick fails in the Advancing phase
(the target block-hash call times out) and the cursor is unchanged. -/
theorem syncTick_failed_cursor_unchanged_witness :
    (Spec.syncTick Spec.demoCfg Spec.failChain Spec.demoState).1 =
      Spec.TickOutcome.failed ∧
    (Spec.syncTick Spec.demoCfg Spec.failChain Spec.demoState).2.cursor =
      Spec.demoState.cursor :=
  ⟨by decide,
   syncTick_failed_cursor_unchanged Spec.demoCfg Spec.failChain Spec.demoState
     (by decide)⟩
